import Mathlib

set_option maxRecDepth 4000

/-! Shallow embedding of the Android signing-credentials subsystem
    (packages/xdl/src/credentials/AndroidCredentials.js) and of the web
    preview opener (packages/xdl/src/Web.js) of the expo-cli repository.
    External effects (the remote credential service, the filesystem, spawned
    tools, the pseudo-terminal session) are modelled by explicit world
    parameters; every operation returns its result together with the trace
    of logs, filesystem operations and session writes it performed. -/

namespace Spec2Proof

/-- Log severity channels of the logger object used by the operations
    (logger.info, log.warn, log.error in the source). -/
inductive LogLevel
  | info
  | warn
  | error
  deriving DecidableEq, Repr

/-- A single logged event: severity plus the rendered message string. -/
structure LogEvent where
  level : LogLevel
  message : String
  deriving DecidableEq, Repr

/-- Model of a JavaScript Error value as the credential code observes it:
    a message plus the optional fields the code inspects (err.code,
    err.stdout, err.stderr). -/
structure JsError where
  message : String
  code : Option String := none
  stdout : Option String := none
  stderr : Option String := none
  deriving DecidableEq, Repr

deriving instance DecidableEq for Except

/-- chalk.bold only wraps the text in terminal styling escapes; the logged
    characters of the payload are unchanged, so it is modelled as the
    identity on the string. -/
def chalkBold (s : String) : String := s

/-- JavaScript truthiness of an optional string field: undefined and the
    empty string are falsy. -/
def jsTruthyStr : Option String → Bool
  | none => false
  | some s => s ≠ ""

/-- The base64 alphabet used by Buffer base64 encoding and decoding. -/
def base64Alphabet : List Char :=
  "ABCDEFGHIJKLMNOPQRSTUVWXYZabcdefghijklmnopqrstuvwxyz0123456789+/".toList

/-- Character of a 6-bit value in the base64 alphabet. -/
def b64chr (n : Nat) : Char := base64Alphabet.getD n 'A'

/-- 6-bit value of a base64 alphabet character. -/
def b64val (c : Char) : Nat := base64Alphabet.findIdx (fun x => x == c)

/-- Standard base64 encoding of a byte list; model of
    Buffer.from(bytes).toString(base64). -/
def encB64 : List Nat → List Char
  | [] => []
  | [a] => [b64chr (a / 4), b64chr (a % 4 * 16), '=', '=']
  | [a, b] => [b64chr (a / 4), b64chr (a % 4 * 16 + b / 16), b64chr (b % 16 * 4), '=']
  | a :: b :: c :: rest =>
      b64chr (a / 4) :: b64chr (a % 4 * 16 + b / 16) :: b64chr (b % 16 * 4 + c / 64) ::
        b64chr (c % 64) :: encB64 rest

/-- Standard base64 decoding of a padded base64 string; model of
    Buffer.from(string, base64). -/
def decB64 : List Char → List Nat
  | c1 :: c2 :: c3 :: c4 :: rest =>
      if c3 = '=' then [b64val c1 * 4 + b64val c2 / 16]
      else if c4 = '=' then
        [b64val c1 * 4 + b64val c2 / 16, b64val c2 % 16 * 16 + b64val c3 / 4]
      else
        (b64val c1 * 4 + b64val c2 / 16) :: (b64val c2 % 16 * 16 + b64val c3 / 4) ::
          (b64val c3 % 4 * 64 + b64val c4) :: decB64 rest
  | _ => []

/-- UTF-8 encoding of one character; model of how Buffer.from(string)
    turns JS text into bytes. -/
def charUtf8 (c : Char) : List Nat :=
  let n := c.toNat
  if n < 128 then [n]
  else if n < 2048 then [192 + n / 64, 128 + n % 64]
  else if n < 65536 then [224 + n / 4096, 128 + n / 64 % 64, 128 + n % 64]
  else [240 + n / 262144, 128 + n / 4096 % 64, 128 + n / 64 % 64, 128 + n % 64]

/-- UTF-8 byte sequence of a string; model of Buffer.from(string). -/
def strBytes (s : String) : List Nat :=
  s.toList.foldr (fun c acc => charUtf8 c ++ acc) []

/-- Uppercase hexadecimal digit of a value below 16, as produced by
    digest(hex).toUpperCase(). -/
def hexDigit (n : Nat) : Char :=
  if n < 10 then Char.ofNat (48 + n) else Char.ofNat (55 + n)

/-- Uppercase hexadecimal rendering of a byte list, two digits per byte;
    model of digest(hex).toUpperCase(). -/
def bytesToHex : List Nat → List Char
  | [] => []
  | b :: rest => hexDigit (b / 16) :: hexDigit (b % 16) :: bytesToHex rest

/-- Uppercase hexadecimal character test. -/
def isUpperHexChar (c : Char) : Bool :=
  ('0' ≤ c && c ≤ '9') || ('A' ≤ c && c ≤ 'F')

/-- Model of hash.replace with the global pattern of any two characters not
    at the end of the string replaced by themselves plus a colon: groups
    pairs from the start and never appends a trailing colon. -/
def colonSeparate : List Char → List Char
  | a :: b :: c :: rest => a :: b :: ':' :: colonSeparate (c :: rest)
  | l => l

/-- Lowercase hexadecimal character test (the uuid library renders
    lowercase hex). -/
def isLowerHexChar (c : Char) : Bool :=
  ('0' ≤ c && c ≤ '9') || ('a' ≤ c && c ≤ 'f')

/-- Shape of the canonical hyphenated string rendering of a version-4 UUID
    as produced by the uuid library: 36 characters, hyphens exactly at
    positions 8, 13, 18 and 23, lowercase hex everywhere else. -/
def isUuidV4 (s : String) : Bool :=
  let l := s.toList
  decide (l.length = 36) && decide (l.count '-' = 4) &&
    decide (l.getD 8 ' ' = '-') && decide (l.getD 13 ' ' = '-') &&
    decide (l.getD 18 ' ' = '-') && decide (l.getD 23 ' ' = '-') &&
    l.all (fun c => c == '-' || isLowerHexChar c)

/-- Reduction of a natural number to a 32-bit word. -/
def w32 (n : Nat) : Nat := n % 4294967296

/-- Left rotation of a 32-bit word by s bits. -/
def rotl (s x : Nat) : Nat := w32 (x * 2 ^ s + x / 2 ^ (32 - s))

/-- Right rotation of a 32-bit word by s bits. -/
def rotr (s x : Nat) : Nat := w32 (x / 2 ^ s + x * 2 ^ (32 - s))

/-- Big-endian byte rendering of a number on k bytes. -/
def beBytes : Nat → Nat → List Nat
  | 0, _ => []
  | k + 1, n => (n / 2 ^ (8 * k) % 256) :: beBytes k n

/-- Merkle-Damgard padding shared by SHA-1 and SHA-256: append the 0x80
    marker, zeros up to 56 mod 64 bytes, then the bit length on 8
    big-endian bytes. -/
def mdPad (msg : List Nat) : List Nat :=
  msg ++ 128 :: (List.replicate ((119 - msg.length % 64) % 64) 0 ++ beBytes 8 (8 * msg.length))

/-- Split a byte list into 64-byte blocks, with fuel for structural
    recursion; each step consumes at least one element, so fuel equal to
    the list length suffices. -/
def chunks64Aux : Nat → List Nat → List (List Nat)
  | 0, _ => []
  | _ + 1, [] => []
  | fuel + 1, a :: rest => ((a :: rest).take 64) :: chunks64Aux fuel ((a :: rest).drop 64)

/-- Split a byte list into 64-byte blocks. -/
def chunks64 (l : List Nat) : List (List Nat) := chunks64Aux l.length l

/-- Big-endian 32-bit words of a block of bytes. -/
def toWords : List Nat → List Nat
  | b0 :: b1 :: b2 :: b3 :: rest =>
      (b0 * 16777216 + b1 * 65536 + b2 * 256 + b3) :: toWords rest
  | _ => []

/-- SHA-1 message-schedule extension: append k additional words, each the
    1-bit left rotation of the xor of the words 3, 8, 14 and 16 positions
    back. -/
def sha1Extend (ws : List Nat) : Nat → List Nat
  | 0 => ws
  | k + 1 =>
      let n := ws.length
      sha1Extend
        (ws ++ [rotl 1 (ws.getD (n - 3) 0 ^^^ ws.getD (n - 8) 0 ^^^
          ws.getD (n - 14) 0 ^^^ ws.getD (n - 16) 0)]) k

/-- SHA-1 round function selected by the round index. -/
def sha1F (t b c d : Nat) : Nat :=
  if t < 20 then (b &&& c) ||| ((b ^^^ 4294967295) &&& d)
  else if t < 40 then b ^^^ c ^^^ d
  else if t < 60 then (b &&& c) ||| (b &&& d) ||| (c &&& d)
  else b ^^^ c ^^^ d

/-- SHA-1 round constant selected by the round index. -/
def sha1K (t : Nat) : Nat :=
  if t < 20 then 1518500249
  else if t < 40 then 1859775393
  else if t < 60 then 2400959708
  else 3395469782

/-- One SHA-1 compression round on the five-word state. -/
def sha1Round (st : Nat × Nat × Nat × Nat × Nat) (tw : Nat × Nat) :
    Nat × Nat × Nat × Nat × Nat :=
  match st, tw with
  | (a, b, c, d, e), (t, wv) =>
      (w32 (rotl 5 a + sha1F t b c d + e + sha1K t + wv), a, rotl 30 b, c, d)

/-- SHA-1 compression of one 64-byte block into the running state. -/
def sha1Block (h : Nat × Nat × Nat × Nat × Nat) (block : List Nat) :
    Nat × Nat × Nat × Nat × Nat :=
  let ws := sha1Extend (toWords block) 64
  match h, ws.enum.foldl sha1Round h with
  | (h0, h1, h2, h3, h4), (a, b, c, d, e) =>
      (w32 (h0 + a), w32 (h1 + b), w32 (h2 + c), w32 (h3 + d), w32 (h4 + e))

/-- SHA-1 digest of a byte list, as 20 bytes; model of
    crypto.createHash(sha1).update(data).digest(). -/
def sha1 (msg : List Nat) : List Nat :=
  match (chunks64 (mdPad msg)).foldl sha1Block
      (1732584193, 4023233417, 2562383102, 271733878, 3285377520) with
  | (a, b, c, d, e) =>
      beBytes 4 a ++ beBytes 4 b ++ beBytes 4 c ++ beBytes 4 d ++ beBytes 4 e

/-- SHA-256 round constants. -/
def sha256K : List Nat :=
  [1116352408, 1899447441, 3049323471, 3921009573, 961987163, 1508970993,
   2453635748, 2870763221, 3624381080, 310598401, 607225278, 1426881987,
   1925078388, 2162078206, 2614888103, 3248222580, 3835390401, 4022224774,
   264347078, 604807628, 770255983, 1249150122, 1555081692, 1996064986,
   2554220882, 2821834349, 2952996808, 3210313671, 3336571891, 3584528711,
   113926993, 338241895, 666307205, 773529912, 1294757372, 1396182291,
   1695183700, 1986661051, 2177026350, 2456956037, 2730485921, 2820302411,
   3259730800, 3345764771, 3516065817, 3600352804, 4094571909, 275423344,
   430227734, 506948616, 659060556, 883997877, 958139571, 1322822218,
   1537002063, 1747873779, 1955562222, 2024104815, 2227730452, 2361852424,
   2428436474, 2756734187, 3204031479, 3329325298]

/-- SHA-256 message-schedule extension: append k additional words. -/
def sha256Extend (ws : List Nat) : Nat → List Nat
  | 0 => ws
  | k + 1 =>
      let n := ws.length
      let w15 := ws.getD (n - 15) 0
      let w2 := ws.getD (n - 2) 0
      let s0 := rotr 7 w15 ^^^ rotr 18 w15 ^^^ (w15 / 8)
      let s1 := rotr 17 w2 ^^^ rotr 19 w2 ^^^ (w2 / 1024)
      sha256Extend (ws ++ [w32 (ws.getD (n - 16) 0 + s0 + ws.getD (n - 7) 0 + s1)]) k

/-- One SHA-256 compression round on the eight-word state. -/
def sha256Round (st : Nat × Nat × Nat × Nat × Nat × Nat × Nat × Nat)
    (kw : Nat × Nat) : Nat × Nat × Nat × Nat × Nat × Nat × Nat × Nat :=
  match st, kw with
  | (a, b, c, d, e, f, g, h), (k, wv) =>
      let s1 := rotr 6 e ^^^ rotr 11 e ^^^ rotr 25 e
      let ch := (e &&& f) ^^^ ((e ^^^ 4294967295) &&& g)
      let temp1 := w32 (h + s1 + ch + k + wv)
      let s0 := rotr 2 a ^^^ rotr 13 a ^^^ rotr 22 a
      let maj := (a &&& b) ^^^ (a &&& c) ^^^ (b &&& c)
      let temp2 := w32 (s0 + maj)
      (w32 (temp1 + temp2), a, b, c, w32 (d + temp1), e, f, g)

/-- SHA-256 compression of one 64-byte block into the running state. -/
def sha256Block (h : Nat × Nat × Nat × Nat × Nat × Nat × Nat × Nat)
    (block : List Nat) : Nat × Nat × Nat × Nat × Nat × Nat × Nat × Nat :=
  let ws := sha256Extend (toWords block) 48
  match h, (sha256K.zip ws).foldl sha256Round h with
  | (h0, h1, h2, h3, h4, h5, h6, h7), (a, b, c, d, e, f, g, hh) =>
      (w32 (h0 + a), w32 (h1 + b), w32 (h2 + c), w32 (h3 + d),
       w32 (h4 + e), w32 (h5 + f), w32 (h6 + g), w32 (h7 + hh))

/-- SHA-256 digest of a byte list, as 32 bytes; model of
    crypto.createHash(sha256).update(data).digest(). -/
def sha256 (msg : List Nat) : List Nat :=
  match (chunks64 (mdPad msg)).foldl sha256Block
      (1779033703, 3144134277, 1013904242, 2773480762,
       1359893119, 2600822924, 528734635, 1541459225) with
  | (a, b, c, d, e, f, g, h) =>
      beBytes 4 a ++ beBytes 4 b ++ beBytes 4 c ++ beBytes 4 d ++
        beBytes 4 e ++ beBytes 4 f ++ beBytes 4 g ++ beBytes 4 h

/-- Per-platform line terminator appended after each interactive secret
    input (const NEWLINE in the source). -/
def NEWLINE (isWin32 : Bool) : String := if isWin32 then "\r\n" else "\n"

/-- A credential record as returned by the external credential service. -/
structure CredentialRecord where
  keystore : String
  keystorePassword : String
  keyPassword : String
  keystoreAlias : String
  deriving DecidableEq, Repr

/-- The value backupExistingCredentials returns to its caller. -/
structure BackupReturn where
  keystorePassword : String
  keyAlias : String
  keyPassword : String
  deriving DecidableEq, Repr

/-- Observable outcome of a backup run: the returned or thrown value, the
    log trace, and the file writes performed. -/
structure BackupOutput where
  result : Except JsError BackupReturn
  logs : List LogEvent
  fsWrites : List (String × List Nat)
  deriving DecidableEq, Repr

/-- Default value of the logSecrets parameter of backupExistingCredentials. -/
def backupDefaultLogSecrets : Bool := true

/-- Model of backupExistingCredentials: the external credential lookup is a
    world parameter (none models a missing record). -/
def backupExistingCredentials (outputPath experienceName : String)
    (credentials : Option CredentialRecord) (logSecrets : Bool) : BackupOutput :=
  let l0 := [LogEvent.mk .info ("Retreiving Android keystore for " ++ experienceName)]
  match credentials with
  | none =>
      { result := .error
          { message := "Unable to fetch credentials for this project. Are you sure they exist?" }
        logs := l0
        fsWrites := [] }
  | some c =>
      let storeBuf := decB64 c.keystore.toList
      let l1 := l0 ++ [LogEvent.mk .info ("Writing keystore to " ++ outputPath ++ "...")]
      let l2 :=
        if logSecrets then
          l1 ++ [LogEvent.mk .info "Done writing keystore to disk.",
            LogEvent.mk .info ("Save these important values as well:\n\n  Keystore password: " ++
              chalkBold c.keystorePassword ++ "\n  Key alias:         " ++
              chalkBold c.keystoreAlias ++ "\n  Key password:      " ++
              chalkBold c.keyPassword ++ "\n  "),
            LogEvent.mk .info "Keystore saved!"]
        else l1
      { result := .ok
          { keystorePassword := c.keystorePassword
            keyAlias := c.keystoreAlias
            keyPassword := c.keyPassword }
        logs := l2
        fsWrites := [(outputPath, storeBuf)] }

/-- Read-back of the last write to a path, modelling fs.readFileSync after
    a sequence of fs.writeFileSync calls. -/
def readFileAfter (writes : List (String × List Nat)) (p : String) : Option (List Nat) :=
  ((writes.filter (fun w => w.1 == p)).getLast?).map (fun w => w.2)

/-- Argument list of the keytool exportcert invocation (exportCert). -/
def exportCertArgs (keystorePath keystorePassword keyAlias certFile : String) : List String :=
  ["-exportcert", "-keystore", keystorePath, "-storepass", keystorePassword,
   "-alias", keyAlias, "-file", certFile, "-noprompt", "-storetype", "JKS"]

/-- Argument list of the keytool genkey invocation (createKeystore). -/
def createKeystoreArgs
    (keystorePath keystorePassword keyAlias keyPassword androidPackage : String) :
    List String :=
  ["-genkey", "-v", "-storepass", keystorePassword, "-keypass", keyPassword,
   "-keystore", keystorePath, "-alias", keyAlias, "-keyalg", "RSA", "-keysize",
   "2048", "-validity", "10000", "-dname",
   "CN=" ++ androidPackage ++ ",OU=,O=,L=,S=,C=US"]

/-- Fixed URL the PEPK encryption tool is fetched from when absent. -/
def pepkDownloadUrl : String :=
  "https://www.gstatic.com/play-apps-publisher-rapid/signing-tool/prod/pepk.jar"

/-- Outcome of the pseudo-terminal tool session: a spawn error event or an
    exit event carrying the exit code. -/
inductive PtyOutcome
  | spawnError (e : JsError)
  | exited (code : Int)
  deriving DecidableEq, Repr

/-- Whether the session outcome is a failure (spawn error or non-zero
    exit), i.e. whether the wrapping promise rejects. -/
def sessionFailed : PtyOutcome → Bool
  | .spawnError _ => true
  | .exited c => c != 0

/-- JS string interpolation of the rejection value: the exit code number,
    or the Error default rendering. -/
def renderPtyRejection : PtyOutcome → String
  | .spawnError e => "Error: " ++ e.message
  | .exited c => toString c

/-- Failure modes of exportPrivateKey: a raw download failure (thrown
    before the session) or the wrapped PEPK session failure. -/
inductive ExportError
  | downloadFailure (e : JsError)
  | pepkFailure (message : String)
  deriving DecidableEq, Repr

/-- World of exportPrivateKey: whether the tool binary is already cached,
    the outcome of a download if attempted, and the session outcome. -/
structure ExportWorld where
  toolExists : Bool
  downloadResult : Except JsError Unit
  ptyOutcome : PtyOutcome
  deriving DecidableEq, Repr

/-- Observable outcome of an exportPrivateKey run. -/
structure ExportOutput where
  result : Except ExportError Unit
  sessionSpawned : Bool
  sessionArgs : List String
  sessionWrites : List String
  logs : List LogEvent
  deriving DecidableEq, Repr

/-- Argument list of the PEPK tool invocation. -/
def pepkArgs (encryptToolPath keystorePath keyAlias outputPath encryptionKey : String) :
    List String :=
  ["-jar", encryptToolPath, "--keystore", keystorePath, "--alias", keyAlias,
   "--output", outputPath, "--encryptionkey", encryptionKey]

/-- Model of exportPrivateKey: ensure the PEPK tool is present (download on
    miss), spawn it on a pseudo-terminal, write the keystore password then
    the key password each followed by NEWLINE, and map the session outcome
    to the operation result; a session failure is rethrown wrapped in the
    PEPK failure message. -/
def exportPrivateKey (isWin32 : Bool)
    (keystorePath keystorePassword keyAlias keyPassword : String)
    (encryptionKey outputPath dotExpoHomeDirectory : String)
    (w : ExportWorld) : ExportOutput :=
  let encryptToolPath := dotExpoHomeDirectory ++ "/android_tools_pepk.jar"
  let dlLogs :=
    if w.toolExists then []
    else [LogEvent.mk .info ("Downloading PEPK tool from Google Play to " ++ encryptToolPath)]
  match (if w.toolExists then Except.ok () else w.downloadResult) with
  | .error e =>
      { result := .error (.downloadFailure e), sessionSpawned := false,
        sessionArgs := [], sessionWrites := [], logs := dlLogs }
  | .ok _ =>
      let args := pepkArgs encryptToolPath keystorePath keyAlias outputPath encryptionKey
      let writes := [keystorePassword ++ NEWLINE isWin32, keyPassword ++ NEWLINE isWin32]
      match w.ptyOutcome with
      | .spawnError e =>
          { result := .error (.pepkFailure
              ("PEPK tool failed with return code " ++ renderPtyRejection (.spawnError e)))
            sessionSpawned := true
            sessionArgs := args
            sessionWrites := writes
            logs := dlLogs ++ [LogEvent.mk .info "error"] }
      | .exited c =>
          if c != 0 then
            { result := .error (.pepkFailure
                ("PEPK tool failed with return code " ++ toString c))
              sessionSpawned := true
              sessionArgs := args
              sessionWrites := writes
              logs := dlLogs }
          else
            { result := .ok ()
              sessionSpawned := true
              sessionArgs := args
              sessionWrites := writes
              logs := dlLogs ++ [LogEvent.mk .info
                ("Exported and encrypted private app signing key to file " ++ outputPath)] }

/-- Filesystem operations traced by the fingerprint computation. -/
inductive FsOp
  | readFile (path : String)
  | unlink (path : String)
  deriving DecidableEq, Repr

/-- World of logKeystoreHashes: the outcome of the certificate export, of
    the certificate file read, and of the cleanup unlink. -/
structure HashesWorld where
  exportResult : Except JsError Unit
  readResult : Except JsError (List Nat)
  unlinkResult : Except JsError Unit
  deriving DecidableEq, Repr

/-- Observable outcome of a logKeystoreHashes run. -/
structure HashesOutput where
  result : Except JsError Unit
  logs : List LogEvent
  fsOps : List FsOp
  deriving DecidableEq, Repr

/-- Catch-block logging of logKeystoreHashes: keytool install guidance on
    ENOENT, then any truthy captured stdout and stderr of the error. -/
def keytoolCatchLogs (err : JsError) : List LogEvent :=
  (if err.code == some "ENOENT" then
      [LogEvent.mk .warn "Are you sure you have keytool installed?",
       LogEvent.mk .info "keytool is part of openJDK: http://openjdk.java.net/",
       LogEvent.mk .info "Also make sure that keytool is in your PATH after installation."]
    else []) ++
  (if jsTruthyStr err.stdout then [LogEvent.mk .info (err.stdout.getD "")] else []) ++
  (if jsTruthyStr err.stderr then [LogEvent.mk .error (err.stderr.getD "")] else [])

/-- The four fingerprint log lines computed from the certificate bytes. -/
def hashLogLines (data : List Nat) : List LogEvent :=
  [LogEvent.mk .info ("Google Certificate Fingerprint:     " ++
      String.mk (colonSeparate (bytesToHex (sha1 data)))),
   LogEvent.mk .info ("Google Certificate Hash (SHA-1):    " ++
      String.mk (bytesToHex (sha1 data))),
   LogEvent.mk .info ("Google Certificate Hash (SHA-256):  " ++
      String.mk (bytesToHex (sha256 data))),
   LogEvent.mk .info ("Facebook Key Hash:                  " ++
      String.mk (encB64 (sha1 data)))]

/-- Model of logKeystoreHashes: export the certificate to keystorePath.cer,
    read and hash it, log the fingerprints; on any failure log diagnostics
    and rethrow; in all cases finally attempt to unlink the certificate
    file, swallowing an ENOENT cleanup error and logging any other cleanup
    error without changing the main result. -/
def logKeystoreHashes (keystorePath : String) (w : HashesWorld) : HashesOutput :=
  let certFile := keystorePath ++ ".cer"
  let main : Except JsError Unit × List LogEvent × List FsOp :=
    match w.exportResult with
    | .error err => (.error err, keytoolCatchLogs err, [])
    | .ok _ =>
        match w.readResult with
        | .error err => (.error err, keytoolCatchLogs err, [FsOp.readFile certFile])
        | .ok data => (.ok (), hashLogLines data, [FsOp.readFile certFile])
  let cleanupLogs :=
    match w.unlinkResult with
    | .ok _ => []
    | .error e => if e.code == some "ENOENT" then [] else [LogEvent.mk .error e.message]
  { result := main.1
    logs := main.2.1 ++ cleanupLogs
    fsOps := main.2.2 ++ [FsOp.unlink certFile] }

/-- Default title of logKeystoreCredentials. -/
def logKeystoreCredentialsDefaultTitle : String := "Keystore credentials"

/-- Model of logKeystoreCredentials: unconditionally logs the keystore
    password, key alias and key password under the given title. -/
def logKeystoreCredentials (keystorePassword keyAlias keyPassword : String)
    (title : String) : List LogEvent :=
  [LogEvent.mk .info (title ++
    "\n    Keystore password: " ++ chalkBold keystorePassword ++
    "\n    Key alias:         " ++ chalkBold keyAlias ++
    "\n    Key password:      " ++ chalkBold keyPassword ++ "\n  ")]

/-- The secrets generateUploadKeystore returns alongside the keystore it
    creates. -/
structure UploadKeystoreData where
  keystorePassword : String
  keyPassword : String
  keyAlias : String
  deriving DecidableEq, Repr

/-- Hyphen removal on a UUID string (uuid.replace of every dash by the
    empty string). -/
def uuidStripDashes (s : String) : String :=
  String.mk (s.toList.filter (fun c => c != '-'))

/-- Observable outcome of generateUploadKeystore: the returned secrets and
    the keytool invocation it delegates to. -/
structure GenerateOutput where
  data : UploadKeystoreData
  keytoolArgs : List String
  deriving DecidableEq, Repr

/-- Model of generateUploadKeystore: the two uuidv4 draws are world
    parameters; the passwords are the draws with hyphens removed and the
    alias is the base64 of the experience name. -/
def generateUploadKeystore (uuid1 uuid2 : String)
    (uploadKeystorePath androidPackage experienceName : String) : GenerateOutput :=
  let keystoreData : UploadKeystoreData :=
    { keystorePassword := uuidStripDashes uuid1
      keyPassword := uuidStripDashes uuid2
      keyAlias := String.mk (encB64 (strBytes experienceName)) }
  { data := keystoreData
    keytoolArgs := createKeystoreArgs uploadKeystorePath keystoreData.keystorePassword
      keystoreData.keyAlias keystoreData.keyPassword androidPackage }

/-- Resolution value of openProjectAsync. -/
structure WebResult where
  success : Bool
  url : Option String := none
  error : Option JsError := none
  deriving DecidableEq, Repr

/-- World of the web preview opener: the platforms list of the project
    configuration, the web app URL construction outcome, and the browser
    opening outcome. -/
structure WebWorld where
  platforms : List String
  constructUrlResult : Except JsError String
  opnResult : Except JsError Unit
  deriving DecidableEq, Repr

/-- Observable outcome of an openProjectAsync run: the resolution value,
    the URLs whose opening was attempted, and the log trace. -/
structure WebOutput where
  result : WebResult
  openAttempts : List String
  logs : List LogEvent
  deriving DecidableEq, Repr

/-- Model of hasWebSupportAsync: whether the configured platforms include
    web. -/
def hasWebSupportAsync (platforms : List String) : Bool := platforms.contains "web"

/-- The experimental-web-support notice (logPreviewNotice console output). -/
def previewNoticeLogs : List LogEvent :=
  [LogEvent.mk .info "",
   LogEvent.mk .info ("Web support in Expo is experimental and subject to breaking changes. " ++
     "Do not use this in production yet."),
   LogEvent.mk .info ""]

/-- The app.json guidance block of getWebSetupLogs. -/
def appJsonRules : String :=
  "\n  app.json\n  \x7b\n    \"platforms\": [\n      \"android\",\n      \"ios\",\n  " ++
    "+      \"web\"\n    ]\n  \x7d"

/-- The package.json guidance block of getWebSetupLogs. -/
def packageJsonRules : String :=
  "\n  package.json\n  \x7b\n    \"dependencies\": \x7b\n  " ++
    "+      \"react-native-web\": \"^0.11.0\",\n  " ++
    "+      \"react-dom\": \"^16.7.0\"\n    \x7d,\n    \"devDependencies\": \x7b\n  " ++
    "+      \"babel-preset-expo\": \"^5.1.0\"\n    \x7d\n  \x7d"

/-- Model of getWebSetupLogs (chalk styling dropped). -/
def getWebSetupLogs : String :=
  "Your project is not configured to support web yet!\n  " ++ packageJsonRules ++
    "\n    " ++ appJsonRules

/-- Model of openProjectAsync: resolve with success false and only the
    setup guidance when web is not configured; otherwise construct the web
    app URL and open it, catching any error from either step and resolving
    with success false plus the error. -/
def openProjectAsync (w : WebWorld) : WebOutput :=
  if !(hasWebSupportAsync w.platforms) then
    { result := { success := false }
      openAttempts := []
      logs := [LogEvent.mk .error getWebSetupLogs] }
  else
    match w.constructUrlResult with
    | .error e =>
        { result := { success := false, error := some e }
          openAttempts := []
          logs := previewNoticeLogs ++
            [LogEvent.mk .error ("Couldn\x27t start project on web: " ++ e.message)] }
    | .ok url =>
        match w.opnResult with
        | .error e =>
            { result := { success := false, error := some e }
              openAttempts := [url]
              logs := previewNoticeLogs ++
                [LogEvent.mk .error ("Couldn\x27t start project on web: " ++ e.message)] }
        | .ok _ =>
            { result := { success := true, url := some url }
              openAttempts := [url]
              logs := previewNoticeLogs }

theorem b64val_b64chr : ∀ n : Nat, n < 64 → b64val (b64chr n) = n := by decide

theorem b64chr_ne_pad : ∀ n : Nat, n < 64 → b64chr n ≠ '=' := by decide

theorem decB64_encB64 : ∀ l : List Nat, (∀ b ∈ l, b < 256) → decB64 (encB64 l) = l
  | [], _ => rfl
  | [a], h => by
      have ha : a < 256 := h a (by simp)
      simp only [encB64, decB64]
      rw [if_pos trivial]
      rw [b64val_b64chr (a / 4) (by omega), b64val_b64chr (a % 4 * 16) (by omega)]
      simp only [List.cons.injEq, and_true]
      omega
  | [a, b], h => by
      have ha : a < 256 := h a (by simp)
      have hb : b < 256 := h b (by simp)
      have h3 : b64chr (b % 16 * 4) ≠ '=' := b64chr_ne_pad _ (by omega)
      simp only [encB64, decB64, if_neg h3]
      rw [if_pos trivial]
      rw [b64val_b64chr (a / 4) (by omega), b64val_b64chr (a % 4 * 16 + b / 16) (by omega),
        b64val_b64chr (b % 16 * 4) (by omega)]
      simp only [List.cons.injEq, and_true]
      exact ⟨by omega, by omega⟩
  | a :: b :: c :: rest, h => by
      have ha : a < 256 := h a (by simp)
      have hb : b < 256 := h b (by simp)
      have hc : c < 256 := h c (by simp)
      have ih := decB64_encB64 rest (fun x hx => h x (by simp [hx]))
      have h3 : b64chr (b % 16 * 4 + c / 64) ≠ '=' := b64chr_ne_pad _ (by omega)
      have h4 : b64chr (c % 64) ≠ '=' := b64chr_ne_pad _ (by omega)
      simp only [encB64, decB64, if_neg h3, if_neg h4]
      rw [b64val_b64chr (a / 4) (by omega), b64val_b64chr (a % 4 * 16 + b / 16) (by omega),
        b64val_b64chr (b % 16 * 4 + c / 64) (by omega), b64val_b64chr (c % 64) (by omega)]
      simp only [List.cons.injEq]
      exact ⟨by omega, by omega, by omega, ih⟩

theorem beBytes_length : ∀ k n : Nat, (beBytes k n).length = k
  | 0, _ => rfl
  | k + 1, n => by simp [beBytes, beBytes_length k n]

theorem beBytes_lt : ∀ k n : Nat, ∀ b ∈ beBytes k n, b < 256
  | 0, _, b, hb => by simp [beBytes] at hb
  | k + 1, n, b, hb => by
      simp only [beBytes, List.mem_cons] at hb
      rcases hb with rfl | hb
      · omega
      · exact beBytes_lt k n b hb

theorem sha1_length (m : List Nat) : (sha1 m).length = 20 := by
  unfold sha1
  rcases hfold : (chunks64 (mdPad m)).foldl sha1Block
    (1732584193, 4023233417, 2562383102, 271733878, 3285377520) with ⟨a, b, c, d, e⟩
  simp [beBytes_length]

theorem sha1_bytes_lt (m : List Nat) : ∀ b ∈ sha1 m, b < 256 := by
  unfold sha1
  rcases hfold : (chunks64 (mdPad m)).foldl sha1Block
    (1732584193, 4023233417, 2562383102, 271733878, 3285377520) with ⟨a, b, c, d, e⟩
  intro x hx
  simp only [List.mem_append] at hx
  rcases hx with ((((hx | hx) | hx) | hx) | hx) <;> exact beBytes_lt 4 _ x hx

theorem bytesToHex_length : ∀ bs : List Nat, (bytesToHex bs).length = 2 * bs.length
  | [] => rfl
  | b :: rest => by
      simp only [bytesToHex, List.length_cons, bytesToHex_length rest]
      omega

theorem hexDigit_good : ∀ n : Nat, n < 16 →
    isUpperHexChar (hexDigit n) = true ∧ hexDigit n ≠ ':' := by decide

theorem bytesToHex_good : ∀ bs : List Nat, (∀ b ∈ bs, b < 256) →
    ∀ c ∈ bytesToHex bs, isUpperHexChar c = true ∧ c ≠ ':'
  | [], _, c, hc => by simp [bytesToHex] at hc
  | b :: rest, h, c, hc => by
      have hb : b < 256 := h b (by simp)
      simp only [bytesToHex, List.mem_cons] at hc
      rcases hc with rfl | rfl | hc
      · exact hexDigit_good _ (by omega)
      · exact hexDigit_good _ (by omega)
      · exact bytesToHex_good rest (fun x hx => h x (by simp [hx])) c hc

theorem colonSeparate_spec : ∀ l : List Char, (∀ c ∈ l, c ≠ ':') →
    (colonSeparate l).count ':' = (l.length - 1) / 2 ∧
    (colonSeparate l).filter (fun c => c != ':') = l ∧
    (l = [] ∨ ∃ pre last, last ≠ ':' ∧ colonSeparate l = pre ++ [last])
  | [], _ => by simp [colonSeparate]
  | [a], h => by
      have ha : a ≠ ':' := h a (by simp)
      refine ⟨?_, ?_, Or.inr ⟨[], a, ha, rfl⟩⟩
      · simp [colonSeparate, List.count_cons, ha]
      · simp [colonSeparate, List.filter_cons, ha]
  | [a, b], h => by
      have ha : a ≠ ':' := h a (by simp)
      have hb : b ≠ ':' := h b (by simp)
      refine ⟨?_, ?_, Or.inr ⟨[a], b, hb, rfl⟩⟩
      · simp [colonSeparate, List.count_cons, ha, hb]
      · simp [colonSeparate, List.filter_cons, ha, hb]
  | a :: b :: c :: rest, h => by
      have ha : a ≠ ':' := h a (by simp)
      have hb : b ≠ ':' := h b (by simp)
      have ih := colonSeparate_spec (c :: rest) (fun x hx => h x (by simp at hx ⊢; tauto))
      obtain ⟨ih1, ih2, ih3⟩ := ih
      refine ⟨?_, ?_, ?_⟩
      · simp only [List.length_cons] at ih1
        simp only [colonSeparate, List.length_cons]
        simp [List.count_cons, ha, hb, ih1]
        omega
      · simp only [colonSeparate]
        simp [List.filter_cons, ha, hb, ih2]
      · rcases ih3 with h0 | ⟨pre, last, hlast, heq⟩
        · simp at h0
        · exact Or.inr ⟨a :: b :: ':' :: pre, last, hlast, by
            simp only [colonSeparate, heq, List.cons_append]⟩

/-- C2: for every certificate byte sequence, the rendered SHA-1 fingerprint
    is exactly 40 uppercase hexadecimal characters, and its colon-separated
    form groups the 40 characters into pairs from the start, with exactly
    19 colons and no trailing colon. -/
theorem fingerprint_sha1_format (cert : List Nat) :
    (bytesToHex (sha1 cert)).length = 40 ∧
    (∀ c ∈ bytesToHex (sha1 cert), isUpperHexChar c = true) ∧
    (colonSeparate (bytesToHex (sha1 cert))).count ':' = 19 ∧
    (colonSeparate (bytesToHex (sha1 cert))).filter (fun c => c != ':') =
      bytesToHex (sha1 cert) ∧
    ∃ pre last, last ≠ ':' ∧
      colonSeparate (bytesToHex (sha1 cert)) = pre ++ [last] := by
  have hlen : (bytesToHex (sha1 cert)).length = 40 := by
    rw [bytesToHex_length, sha1_length]
  have hgood := bytesToHex_good (sha1 cert) (sha1_bytes_lt cert)
  have hnc : ∀ c ∈ bytesToHex (sha1 cert), c ≠ ':' := fun c hc => (hgood c hc).2
  obtain ⟨c1, c2, c3⟩ := colonSeparate_spec (bytesToHex (sha1 cert)) hnc
  refine ⟨hlen, fun c hc => (hgood c hc).1, ?_, c2, ?_⟩
  · rw [c1, hlen]
  · rcases c3 with h0 | h1
    · rw [h0] at hlen
      simp at hlen
    · exact h1

/-- Witness for C2 at the empty certificate byte sequence. -/
theorem fingerprint_sha1_format_witness :
    (bytesToHex (sha1 [])).length = 40 ∧
    (∀ c ∈ bytesToHex (sha1 []), isUpperHexChar c = true) ∧
    (colonSeparate (bytesToHex (sha1 []))).count ':' = 19 ∧
    (colonSeparate (bytesToHex (sha1 []))).filter (fun c => c != ':') =
      bytesToHex (sha1 []) ∧
    ∃ pre last, last ≠ ':' ∧
      colonSeparate (bytesToHex (sha1 [])) = pre ++ [last] :=
  fingerprint_sha1_format []

/-- C1 counterexample: with no explicit opt-in (the logSecrets parameter
    left at its default value, which is true), two backup runs that differ
    only in the keystore password secret produce different logs, so the
    log output is not independent of the secret values. -/
theorem backup_logs_secrets_at_default :
    backupDefaultLogSecrets = true ∧
    (backupExistingCredentials "backup.jks" "@user/app"
        (some { keystore := "", keystorePassword := "pwA", keyPassword := "kp",
                keystoreAlias := "key-alias" }) backupDefaultLogSecrets).logs ≠
      (backupExistingCredentials "backup.jks" "@user/app"
        (some { keystore := "", keystorePassword := "pwB", keyPassword := "kp",
                keystoreAlias := "key-alias" }) backupDefaultLogSecrets).logs :=
  ⟨rfl, by decide⟩

/-- C1 amended: with logSecrets explicitly false the backup log output is
    independent of the secret values; but logSecrets defaults to true
    rather than requiring an explicit opt-in, and logKeystoreCredentials
    logs the secrets unconditionally, with no flag at all (its output
    distinguishes any two distinct keystore passwords). -/
theorem credentials_logging_policy :
    (∀ outputPath experienceName c c',
        (backupExistingCredentials outputPath experienceName (some c) false).logs =
          (backupExistingCredentials outputPath experienceName (some c') false).logs) ∧
    backupDefaultLogSecrets = true ∧
    (∀ title keyAlias keyPassword pw pw', pw ≠ pw' →
        logKeystoreCredentials pw keyAlias keyPassword title ≠
          logKeystoreCredentials pw' keyAlias keyPassword title) := by
  refine ⟨fun outputPath experienceName c c' => rfl, rfl, ?_⟩
  intro t al kp pw pw' hne heq
  apply hne
  simp only [logKeystoreCredentials, chalkBold, List.cons.injEq, and_true,
    LogEvent.mk.injEq, true_and] at heq
  have hd := congrArg String.data heq
  simp only [String.data_append, List.append_assoc] at hd
  simp only [List.append_cancel_left_eq] at hd
  exact String.ext (List.append_cancel_right hd)

/-- Witness for the amended C1 at concrete credentials and passwords. -/
theorem credentials_logging_policy_witness :
    (backupExistingCredentials "backup.jks" "@user/app"
        (some { keystore := "", keystorePassword := "pwA", keyPassword := "kp",
                keystoreAlias := "key-alias" }) false).logs =
      (backupExistingCredentials "backup.jks" "@user/app"
        (some { keystore := "", keystorePassword := "pwB", keyPassword := "kp",
                keystoreAlias := "key-alias" }) false).logs ∧
    logKeystoreCredentials "pwA" "key-alias" "kp" "Keystore credentials" ≠
      logKeystoreCredentials "pwB" "key-alias" "kp" "Keystore credentials" :=
  ⟨credentials_logging_policy.1 "backup.jks" "@user/app"
     { keystore := "", keystorePassword := "pwA", keyPassword := "kp",
       keystoreAlias := "key-alias" }
     { keystore := "", keystorePassword := "pwB", keyPassword := "kp",
       keystoreAlias := "key-alias" },
   credentials_logging_policy.2.2 "Keystore credentials" "key-alias" "kp" "pwA" "pwB"
     (by decide)⟩

/-- C5: when the credential record exists, backup returns all three
    secrets (keystore password, key alias, key password) to the caller,
    and the returned value does not depend on the logSecrets flag. -/
theorem backup_returns_secrets_regardless_of_flag
    (outputPath experienceName : String) (c : CredentialRecord) (logSecrets : Bool) :
    (backupExistingCredentials outputPath experienceName (some c) logSecrets).result =
      .ok { keystorePassword := c.keystorePassword, keyAlias := c.keystoreAlias,
            keyPassword := c.keyPassword } ∧
    (backupExistingCredentials outputPath experienceName (some c) logSecrets).result =
      (backupExistingCredentials outputPath experienceName (some c) (!logSecrets)).result :=
  ⟨rfl, rfl⟩

/-- C9: when the credential lookup returns no record, backup throws before
    performing any write: no filesystem write happens, the output path
    reads back unchanged, and no secrets are returned. -/
theorem backup_missing_credentials_atomic
    (outputPath experienceName : String) (logSecrets : Bool) :
    (backupExistingCredentials outputPath experienceName none logSecrets).result =
      .error { message :=
        "Unable to fetch credentials for this project. Are you sure they exist?" } ∧
    (backupExistingCredentials outputPath experienceName none logSecrets).fsWrites = [] ∧
    readFileAfter
      (backupExistingCredentials outputPath experienceName none logSecrets).fsWrites
      outputPath = none :=
  ⟨rfl, rfl, rfl⟩

/-- C6: backing up a credential record whose keystore blob is the base64
    encoding of some byte sequence writes exactly those bytes, and reading
    the output path back yields the original keystore bytes. -/
theorem backup_keystore_roundtrip
    (outputPath experienceName : String) (logSecrets : Bool)
    (bytes : List Nat) (c : CredentialRecord)
    (hbytes : ∀ b ∈ bytes, b < 256)
    (hks : c.keystore = String.mk (encB64 bytes)) :
    readFileAfter
      (backupExistingCredentials outputPath experienceName (some c) logSecrets).fsWrites
      outputPath = some bytes := by
  have h1 : (backupExistingCredentials outputPath experienceName (some c) logSecrets).fsWrites
      = [(outputPath, decB64 c.keystore.toList)] := rfl
  rw [h1, hks]
  rw [show (String.mk (encB64 bytes)).toList = encB64 bytes from rfl]
  rw [decB64_encB64 bytes hbytes]
  simp [readFileAfter]

/-- Witness for C6 at a concrete three-byte keystore. -/
theorem backup_keystore_roundtrip_witness :
    (∀ b ∈ [0, 255, 16], b < 256) ∧
    readFileAfter
      (backupExistingCredentials "out.jks" "@u/a"
        (some { keystore := String.mk (encB64 [0, 255, 16]), keystorePassword := "p",
                keyPassword := "k", keystoreAlias := "a" }) true).fsWrites
      "out.jks" = some [0, 255, 16] :=
  ⟨by decide,
   backup_keystore_roundtrip "out.jks" "@u/a" true [0, 255, 16]
     { keystore := String.mk (encB64 [0, 255, 16]), keystorePassword := "p",
       keyPassword := "k", keystoreAlias := "a" } (by decide) rfl⟩

/-- C3: the fingerprint computation attempts the cleanup unlink of the
    temporary certificate file as its final filesystem action on every
    exit path; its result never depends on the cleanup outcome; an ENOENT
    cleanup error adds no log, and any other cleanup error appends exactly
    one error log without changing the result. -/
theorem fingerprint_cleanup_policy (keystorePath : String) (w : HashesWorld) (e : JsError) :
    (logKeystoreHashes keystorePath w).fsOps.getLast? =
      some (FsOp.unlink (keystorePath ++ ".cer")) ∧
    (logKeystoreHashes keystorePath { w with unlinkResult := .error e }).result =
      (logKeystoreHashes keystorePath { w with unlinkResult := .ok () }).result ∧
    (logKeystoreHashes keystorePath { w with unlinkResult := .error e }).logs =
      (logKeystoreHashes keystorePath { w with unlinkResult := .ok () }).logs ++
        (if e.code == some "ENOENT" then [] else [LogEvent.mk .error e.message]) := by
  obtain ⟨er, rr, ur⟩ := w
  refine ⟨?_, ?_, ?_⟩
  · cases er with
    | error err => simp [logKeystoreHashes]
    | ok u => cases rr <;> simp [logKeystoreHashes]
  · cases er with
    | error err => rfl
    | ok u => cases rr <;> rfl
  · cases er with
    | error err => simp [logKeystoreHashes]
    | ok u => cases rr <;> simp [logKeystoreHashes]

/-- C4: whenever the PEPK session runs (the tool was already cached or the
    download succeeded), exportPrivateKey writes exactly two lines to the
    interactive session before it can succeed: the keystore password then
    the key password, each followed by the platform line terminator, and
    nothing else. -/
theorem export_private_key_session_writes (isWin32 : Bool)
    (keystorePath keystorePassword keyAlias keyPassword : String)
    (encryptionKey outputPath dotExpoHomeDirectory : String) (w : ExportWorld)
    (h : w.toolExists = true ∨ w.downloadResult = Except.ok ()) :
    (exportPrivateKey isWin32 keystorePath keystorePassword keyAlias keyPassword
        encryptionKey outputPath dotExpoHomeDirectory w).sessionWrites =
      [keystorePassword ++ NEWLINE isWin32, keyPassword ++ NEWLINE isWin32] := by
  obtain ⟨te, dr, po⟩ := w
  cases te with
  | false =>
      rcases h with h | h
      · exact absurd h (by simp)
      · simp only at h
        subst h
        cases po with
        | spawnError e => rfl
        | exited c =>
            by_cases hc : c = 0
            · subst hc; rfl
            · simp [exportPrivateKey, hc]
  | true =>
      cases po with
      | spawnError e => rfl
      | exited c =>
          by_cases hc : c = 0
          · subst hc; rfl
          · simp [exportPrivateKey, hc]

/-- Witness for C4 with the tool cached and a clean exit. -/
theorem export_private_key_session_writes_witness :
    ((⟨true, Except.ok (), PtyOutcome.exited 0⟩ : ExportWorld).toolExists = true ∨
      (⟨true, Except.ok (), PtyOutcome.exited 0⟩ : ExportWorld).downloadResult =
        Except.ok ()) ∧
    (exportPrivateKey false "ks.jks" "pw1" "key-alias" "pw2" "enc-key" "out.pem"
        "/home/u/.expo" ⟨true, Except.ok (), PtyOutcome.exited 0⟩).sessionWrites =
      ["pw1\n", "pw2\n"] :=
  ⟨Or.inl rfl,
   export_private_key_session_writes false "ks.jks" "pw1" "key-alias" "pw2" "enc-key"
     "out.pem" "/home/u/.expo" ⟨true, Except.ok (), PtyOutcome.exited 0⟩ (Or.inl rfl)⟩

/-- C8: with the PEPK tool available, exportPrivateKey succeeds exactly
    when the session exits with code 0, fails with the PEPK failure error
    carrying the underlying exit code or spawn cause exactly when the
    session fails, and invokes the tool with the output flag naming
    outputPath. -/
theorem export_private_key_result (isWin32 : Bool)
    (keystorePath keystorePassword keyAlias keyPassword : String)
    (encryptionKey outputPath dotExpoHomeDirectory : String) (w : ExportWorld)
    (h : w.toolExists = true ∨ w.downloadResult = Except.ok ()) :
    ((exportPrivateKey isWin32 keystorePath keystorePassword keyAlias keyPassword
        encryptionKey outputPath dotExpoHomeDirectory w).result = .ok () ↔
      w.ptyOutcome = .exited 0) ∧
    ((exportPrivateKey isWin32 keystorePath keystorePassword keyAlias keyPassword
        encryptionKey outputPath dotExpoHomeDirectory w).result =
        .error (.pepkFailure ("PEPK tool failed with return code " ++
          renderPtyRejection w.ptyOutcome)) ↔ sessionFailed w.ptyOutcome = true) ∧
    (exportPrivateKey isWin32 keystorePath keystorePassword keyAlias keyPassword
        encryptionKey outputPath dotExpoHomeDirectory w).sessionArgs =
      pepkArgs (dotExpoHomeDirectory ++ "/android_tools_pepk.jar") keystorePath keyAlias
        outputPath encryptionKey := by
  obtain ⟨te, dr, po⟩ := w
  cases te with
  | false =>
      rcases h with h | h
      · exact absurd h (by simp)
      · simp only at h
        subst h
        cases po with
        | spawnError e => simp [exportPrivateKey, renderPtyRejection, sessionFailed]
        | exited c =>
            by_cases hc : c = 0
            · subst hc; simp [exportPrivateKey, renderPtyRejection, sessionFailed]
            · simp [exportPrivateKey, renderPtyRejection, sessionFailed, hc]
  | true =>
      cases po with
      | spawnError e => simp [exportPrivateKey, renderPtyRejection, sessionFailed]
      | exited c =>
          by_cases hc : c = 0
          · subst hc; simp [exportPrivateKey, renderPtyRejection, sessionFailed]
          · simp [exportPrivateKey, renderPtyRejection, sessionFailed, hc]

/-- Witness for C8 with the tool cached and a failing exit code 1. -/
theorem export_private_key_result_witness :
    ((⟨true, Except.ok (), PtyOutcome.exited 1⟩ : ExportWorld).toolExists = true ∨
      (⟨true, Except.ok (), PtyOutcome.exited 1⟩ : ExportWorld).downloadResult =
        Except.ok ()) ∧
    (((exportPrivateKey false "ks.jks" "pw1" "key-alias" "pw2" "enc-key" "out.pem"
        "/home/u/.expo" ⟨true, Except.ok (), PtyOutcome.exited 1⟩).result = .ok () ↔
      (⟨true, Except.ok (), PtyOutcome.exited 1⟩ : ExportWorld).ptyOutcome =
        .exited 0) ∧
    ((exportPrivateKey false "ks.jks" "pw1" "key-alias" "pw2" "enc-key" "out.pem"
        "/home/u/.expo" ⟨true, Except.ok (), PtyOutcome.exited 1⟩).result =
        .error (.pepkFailure ("PEPK tool failed with return code " ++
          renderPtyRejection (⟨true, Except.ok (),
            PtyOutcome.exited 1⟩ : ExportWorld).ptyOutcome)) ↔
      sessionFailed (⟨true, Except.ok (),
        PtyOutcome.exited 1⟩ : ExportWorld).ptyOutcome = true) ∧
    (exportPrivateKey false "ks.jks" "pw1" "key-alias" "pw2" "enc-key" "out.pem"
        "/home/u/.expo" ⟨true, Except.ok (), PtyOutcome.exited 1⟩).sessionArgs =
      pepkArgs ("/home/u/.expo" ++ "/android_tools_pepk.jar") "ks.jks" "key-alias"
        "out.pem" "enc-key") :=
  ⟨Or.inl rfl,
   export_private_key_result false "ks.jks" "pw1" "key-alias" "pw2" "enc-key"
     "out.pem" "/home/u/.expo" ⟨true, Except.ok (), PtyOutcome.exited 1⟩ (Or.inl rfl)⟩

theorem filter_dash_length : ∀ l : List Char,
    (l.filter (fun c => c != '-')).length + l.count '-' = l.length
  | [] => rfl
  | a :: rest => by
      have ih := filter_dash_length rest
      by_cases hc : a = '-'
      · subst hc
        simp only [List.filter_cons, List.count_cons]
        simp
        omega
      · simp only [List.filter_cons, List.count_cons]
        simp [hc]
        omega

theorem uuidStripDashes_spec (s : String) (h : isUuidV4 s = true) :
    (uuidStripDashes s).length = 32 ∧ '-' ∉ (uuidStripDashes s).toList := by
  simp only [isUuidV4, Bool.and_eq_true, decide_eq_true_eq] at h
  have h36 : s.toList.length = 36 := h.1.1.1.1.1.1
  have h4 : s.toList.count '-' = 4 := h.1.1.1.1.1.2
  constructor
  · have h1 : (uuidStripDashes s).length =
        (s.toList.filter (fun c => c != '-')).length := rfl
    rw [h1]
    have h2 := filter_dash_length s.toList
    omega
  · intro hmem
    have h3 : '-' ∈ s.toList.filter (fun c => c != '-') := hmem
    simp [List.mem_filter] at h3

/-- C7: the generated keystore and key passwords are the 32-character
    hyphen-free forms of the uuid draws, and the key alias is the base64
    encoding of the experience name, hence identical across any two calls
    with the same experience name. -/
theorem generate_upload_keystore_secrets
    (uuid1 uuid2 uuid3 uuid4 : String)
    (uploadKeystorePath androidPackage path2 package2 experienceName : String)
    (h1 : isUuidV4 uuid1 = true) (h2 : isUuidV4 uuid2 = true) :
    ((generateUploadKeystore uuid1 uuid2 uploadKeystorePath androidPackage
        experienceName).data.keystorePassword).length = 32 ∧
    '-' ∉ ((generateUploadKeystore uuid1 uuid2 uploadKeystorePath androidPackage
        experienceName).data.keystorePassword).toList ∧
    ((generateUploadKeystore uuid1 uuid2 uploadKeystorePath androidPackage
        experienceName).data.keyPassword).length = 32 ∧
    '-' ∉ ((generateUploadKeystore uuid1 uuid2 uploadKeystorePath androidPackage
        experienceName).data.keyPassword).toList ∧
    (generateUploadKeystore uuid1 uuid2 uploadKeystorePath androidPackage
        experienceName).data.keyAlias = String.mk (encB64 (strBytes experienceName)) ∧
    (generateUploadKeystore uuid3 uuid4 path2 package2 experienceName).data.keyAlias =
      (generateUploadKeystore uuid1 uuid2 uploadKeystorePath androidPackage
        experienceName).data.keyAlias := by
  obtain ⟨ha, hb⟩ := uuidStripDashes_spec uuid1 h1
  obtain ⟨hc, hd⟩ := uuidStripDashes_spec uuid2 h2
  exact ⟨ha, hb, hc, hd, rfl, rfl⟩

/-- Witness for C7 at two concrete uuid draws and a concrete name. -/
theorem generate_upload_keystore_secrets_witness :
    isUuidV4 "00112233-4455-4677-8899-aabbccddeeff" = true ∧
    isUuidV4 "ffeeddcc-bbaa-4998-8776-655443322110" = true ∧
    (((generateUploadKeystore "00112233-4455-4677-8899-aabbccddeeff"
        "ffeeddcc-bbaa-4998-8776-655443322110" "upload.jks" "com.example.app"
        "@user/app").data.keystorePassword).length = 32 ∧
    '-' ∉ ((generateUploadKeystore "00112233-4455-4677-8899-aabbccddeeff"
        "ffeeddcc-bbaa-4998-8776-655443322110" "upload.jks" "com.example.app"
        "@user/app").data.keystorePassword).toList ∧
    (((generateUploadKeystore "00112233-4455-4677-8899-aabbccddeeff"
        "ffeeddcc-bbaa-4998-8776-655443322110" "upload.jks" "com.example.app"
        "@user/app").data.keyPassword).length = 32 ∧
    '-' ∉ ((generateUploadKeystore "00112233-4455-4677-8899-aabbccddeeff"
        "ffeeddcc-bbaa-4998-8776-655443322110" "upload.jks" "com.example.app"
        "@user/app").data.keyPassword).toList ∧
    (generateUploadKeystore "00112233-4455-4677-8899-aabbccddeeff"
        "ffeeddcc-bbaa-4998-8776-655443322110" "upload.jks" "com.example.app"
        "@user/app").data.keyAlias = String.mk (encB64 (strBytes "@user/app")) ∧
    (generateUploadKeystore "ffeeddcc-bbaa-4998-8776-655443322110"
        "00112233-4455-4677-8899-aabbccddeeff" "other.jks" "com.example.other"
        "@user/app").data.keyAlias =
      (generateUploadKeystore "00112233-4455-4677-8899-aabbccddeeff"
        "ffeeddcc-bbaa-4998-8776-655443322110" "upload.jks" "com.example.app"
        "@user/app").data.keyAlias)) :=
  ⟨by decide, by decide,
   generate_upload_keystore_secrets "00112233-4455-4677-8899-aabbccddeeff"
     "ffeeddcc-bbaa-4998-8776-655443322110" "ffeeddcc-bbaa-4998-8776-655443322110"
     "00112233-4455-4677-8899-aabbccddeeff" "upload.jks" "com.example.app"
     "other.jks" "com.example.other" "@user/app" (by decide) (by decide)⟩

/-- C10: openProjectAsync resolves rather than rejecting: without web
    support it resolves success false without attempting to open any URL;
    a URL construction error or a browser opening error is caught and
    resolved as success false carrying the error. -/
theorem open_project_web_behavior (w : WebWorld) :
    (hasWebSupportAsync w.platforms = false →
      openProjectAsync w =
        { result := { success := false }, openAttempts := [],
          logs := [LogEvent.mk .error getWebSetupLogs] }) ∧
    (∀ e, hasWebSupportAsync w.platforms = true → w.constructUrlResult = .error e →
      (openProjectAsync w).result = { success := false, error := some e } ∧
      (openProjectAsync w).openAttempts = []) ∧
    (∀ e url, hasWebSupportAsync w.platforms = true → w.constructUrlResult = .ok url →
      w.opnResult = .error e →
      (openProjectAsync w).result = { success := false, error := some e } ∧
      (openProjectAsync w).openAttempts = [url]) := by
  obtain ⟨pl, cu, op⟩ := w
  refine ⟨?_, ?_, ?_⟩
  · intro hw
    simp [openProjectAsync, hw]
  · intro e hw hcu
    subst hcu
    simp [openProjectAsync, hw]
  · intro e url hw hcu hop
    subst hcu
    subst hop
    simp [openProjectAsync, hw]

/-- Witness for C10 at a project configured without web support. -/
theorem open_project_web_behavior_witness :
    hasWebSupportAsync (["android", "ios"] : List String) = false ∧
    openProjectAsync ⟨["android", "ios"], Except.ok "http://localhost:19006",
        Except.ok ()⟩ =
      { result := { success := false }, openAttempts := [],
        logs := [LogEvent.mk .error getWebSetupLogs] } :=
  ⟨rfl,
   (open_project_web_behavior ⟨["android", "ios"],
      Except.ok "http://localhost:19006", Except.ok ()⟩).1 rfl⟩

theorem encB64_test : encB64 [77, 97, 110] = ['T', 'W', 'F', 'u'] := by decide

theorem encB64_pad_test : encB64 [77] = ['T', 'Q', '=', '='] := by decide

theorem sha1_abc_test :
    bytesToHex (sha1 [97, 98, 99]) =
      "A9993E364706816ABA3E25717850C26C9CD0D89D".toList := by decide

theorem sha256_abc_test :
    bytesToHex (sha256 [97, 98, 99]) =
      "BA7816BF8F01CFEA414140DE5DAE2223B00361A396177A9CB410FF61F20015AD".toList := by
  decide

end Spec2Proof
